import Mathlib

/-!
Verification of the blog CRUD gRPC service (`src/server/main.go`,
`src/proto/blog.proto`) against its natural-language specification.

The Go server is shallowly embedded: MongoDB ObjectIDs become 12-byte
lists with the driver's hex encoding/decoding, the single `blog`
collection becomes a list of `BlogItem` documents, and each gRPC handler
becomes a pure function from the request, the collection state, and an
environment of driver-call outcomes to a result, the new collection
state, and the list of store calls it issued.
-/

set_option autoImplicit false

namespace BlogService

/-- A MongoDB ObjectID (`primitive.ObjectID`): 12 bytes. -/
abbrev ObjectID := { l : List Nat // l.length = 12 ∧ ∀ b ∈ l, b < 256 }

/-- The lowercase hex digit for `n < 16`: Go's `hex.EncodeToString`
indexes the digit table string exactly like this. -/
def hexDigit (n : Nat) : Char :=
  "0123456789abcdef".data.getD n '0'

/-- The two lowercase hex digits of a byte. -/
def byteHex (b : Nat) : List Char := [hexDigit (b / 16), hexDigit (b % 16)]

/-- `primitive.ObjectID.Hex`: lowercase hex encoding of the 12 bytes. -/
def ObjectID.Hex (oid : ObjectID) : String :=
  String.mk (oid.val.flatMap byteHex)

/-- The numeric value of a hex digit character, accepting both cases
as Go's `hex.Decode` does; `none` on a non-hex character. -/
def hexVal (c : Char) : Option Nat :=
  if '0' ≤ c ∧ c ≤ '9' then some (c.toNat - '0'.toNat)
  else if 'a' ≤ c ∧ c ≤ 'f' then some (c.toNat - 'a'.toNat + 10)
  else if 'A' ≤ c ∧ c ≤ 'F' then some (c.toNat - 'A'.toNat + 10)
  else none

/-- Decode an even-length hex character sequence into bytes. -/
def decodePairs : List Char → Option (List Nat)
  | [] => some []
  | [_] => none
  | c1 :: c2 :: rest => do
      let hi ← hexVal c1
      let lo ← hexVal c2
      let tl ← decodePairs rest
      pure ((16 * hi + lo) :: tl)

/-- `primitive.ObjectIDFromHex`: a string parses iff it is exactly 24 hex
digits; the byte-range side conditions always hold for a successful
decode and only discharge the `ObjectID` subtype. -/
def ObjectIDFromHex (s : String) : Option ObjectID :=
  if s.length = 24 then
    match decodePairs s.data with
    | none => none
    | some l =>
        if h : l.length = 12 ∧ ∀ b ∈ l, b < 256 then some ⟨l, h⟩ else none
  else none

/-- `primitive.NilObjectID`: the zero ObjectID, the Go zero value that
`oid` keeps when `ObjectIDFromHex` fails. -/
def NilObjectID : ObjectID :=
  ⟨List.replicate 12 0, by decide⟩

/-- `BlogItem` (main.go lines 182-187): the BSON document shape of the
`blog` collection, field order as declared in the source. -/
structure BlogItem where
  ID : ObjectID
  AuthorID : String
  Content : String
  Title : String
deriving DecidableEq, Repr

/-- The BSON document that `InsertOne` marshals from a `BlogItem`: the tag
`bson:"_id,omitempty"` omits `_id` when `ID` is the zero ObjectID, so the
field appears as `none` exactly in that case. -/
structure BsonBlogDoc where
  id_field : Option ObjectID
  author_id : String
  content : String
  title : String
deriving DecidableEq, Repr

/-- BSON marshalling of a `BlogItem` for insertion, honouring
`omitempty` on `_id`. -/
def marshalInsert (item : BlogItem) : BsonBlogDoc :=
  { id_field := if item.ID = NilObjectID then none else some item.ID
    author_id := item.AuthorID
    content := item.Content
    title := item.Title }

/-- The `blog` collection: documents keyed by their `_id`. -/
abbrev Store := List BlogItem

/-- Point lookup on `_id`, as the driver evaluates the filter
`bson.M(_id: oid)`: the first document whose `_id` equals `oid`. -/
def storeFind (store : Store) (oid : ObjectID) : Option BlogItem :=
  store.find? (fun item => decide (item.ID = oid))

/-- Replace the first document whose `_id` equals `oid`. -/
def storeReplace : Store → ObjectID → BlogItem → Store
  | [], _, _ => []
  | it :: rest, oid, item =>
      if it.ID = oid then item :: rest else it :: storeReplace rest oid item

/-- Remove the first document whose `_id` equals `oid`. -/
def storeRemove : Store → ObjectID → Store
  | [], _ => []
  | it :: rest, oid =>
      if it.ID = oid then rest else it :: storeRemove rest oid

/-- `mongo.DeleteResult`: the driver's delete report; the handler
discards it. -/
structure DeleteResult where
  DeletedCount : Nat
deriving DecidableEq, Repr

/-- The dynamic type of `result.InsertedID` (`interface` value in Go):
normally a `primitive.ObjectID`, but the handler's cast is unchecked, so
the model keeps the other-type case, tagged with its type name. -/
inductive BsonId where
  | objectId (oid : ObjectID)
  | other (typeName : String)
deriving DecidableEq, Repr

/-- Outcomes of the driver calls the handlers make, chosen by the
environment: each `...Err` injects a driver-level I/O failure into the
corresponding call, and `insertedId` is the key the insert result
reports when the inserted document carried no `_id`. -/
structure DbEnv where
  insertedId : BsonId
  insertErr : Option String
  findErr : Option String
  updateErr : Option String
  deleteErr : Option String
deriving DecidableEq, Repr

/-- A fault-free environment whose generated insert key is `fresh`. -/
def okEnv (fresh : ObjectID) : DbEnv :=
  { insertedId := .objectId fresh
    insertErr := none
    findErr := none
    updateErr := none
    deleteErr := none }

/-- `blogdb.InsertOne`: persists the document (under its own `_id` when
present, else under the driver-generated key) and reports the key as
`InsertedID`; a driver fault surfaces as an error and stores nothing. -/
def insertOne (env : DbEnv) (store : Store) (doc : BsonBlogDoc) :
    Except String BsonId × Store :=
  match env.insertErr with
  | some e => (.error e, store)
  | none =>
      match doc.id_field with
      | some k =>
          (.ok (.objectId k), store ++ [⟨k, doc.author_id, doc.content, doc.title⟩])
      | none =>
          match env.insertedId with
          | .objectId oid =>
              (.ok (.objectId oid),
               store ++ [⟨oid, doc.author_id, doc.content, doc.title⟩])
          | .other t => (.ok (.other t), store)

/-- `blogdb.FindOne` followed by `Decode`: a driver fault surfaces as the
decode error; otherwise decoding fails with `mongo: no documents in
result` exactly when no document matches. -/
def findOneDecode (env : DbEnv) (store : Store) (oid : ObjectID) :
    Except String BlogItem :=
  match env.findErr with
  | some e => .error e
  | none =>
      match storeFind store oid with
      | some item => .ok item
      | none => .error "mongo: no documents in result"

/-- The `$set` payload `UpdateBlog` builds (main.go lines 103-107). -/
structure UpdateFields where
  author_id : String
  title : String
  content : String
deriving DecidableEq, Repr

/-- `blogdb.FindOneAndUpdate` with `$set` on the three fields and
`ReturnDocument = After`, followed by `Decode`: atomically replaces
`author_id`, `title`, `content` of the matching document and returns the
updated document; decoding fails when no document matches. -/
def findOneAndUpdateDecode (env : DbEnv) (store : Store) (oid : ObjectID)
    (upd : UpdateFields) : Except String BlogItem × Store :=
  match env.updateErr with
  | some e => (.error e, store)
  | none =>
      match storeFind store oid with
      | none => (.error "mongo: no documents in result", store)
      | some item =>
          let item' : BlogItem :=
            { item with
                AuthorID := upd.author_id
                Title := upd.title
                Content := upd.content }
          (.ok item', storeReplace store oid item')

/-- `blogdb.DeleteOne`: removes the first matching document; zero
matches is NOT an error — the driver reports `DeletedCount = 0` and a
nil error. Only a driver fault produces an error. -/
def deleteOne (env : DbEnv) (store : Store) (oid : ObjectID) :
    Except String DeleteResult × Store :=
  match env.deleteErr with
  | some e => (.error e, store)
  | none =>
      match storeFind store oid with
      | some _ => (.ok ⟨1⟩, storeRemove store oid)
      | none => (.ok ⟨0⟩, store)

/-- The `Blog` wire message (blog.proto lines 17-22). -/
structure Blog where
  id : String
  author_id : String
  title : String
  content : String
deriving DecidableEq, Repr

structure CreateBlogReq where
  blog : Blog
deriving DecidableEq, Repr

structure CreateBlogRes where
  blog : Blog
deriving DecidableEq, Repr

structure ReadBlogReq where
  id : String
deriving DecidableEq, Repr

structure ReadBlogRes where
  blog : Blog
deriving DecidableEq, Repr

structure UpdateBlogReq where
  blog : Blog
deriving DecidableEq, Repr

structure UpdateBlogRes where
  blog : Blog
deriving DecidableEq, Repr

structure DeleteBlogReq where
  id : String
deriving DecidableEq, Repr

structure DeleteBlogRes where
  success : Bool
deriving DecidableEq, Repr

/-- The gRPC status codes the handlers use. -/
inductive Code where
  | InvalidArgument
  | NotFound
  | Internal
deriving DecidableEq, Repr

/-- What a handler invocation produces: a response, a `status.Errorf`
error with its code, or a Go runtime panic. -/
inductive HandlerOutcome (ρ : Type) where
  | ok (res : ρ)
  | errStatus (code : Code) (msg : String)
  | panicked (msg : String)
deriving DecidableEq, Repr

/-- The status code of an error outcome, if any. -/
def HandlerOutcome.statusCode {ρ : Type} : HandlerOutcome ρ → Option Code
  | .errStatus c _ => some c
  | _ => none

/-- One call issued to the document store. -/
inductive StoreCall where
  | insert (doc : BsonBlogDoc)
  | find (oid : ObjectID)
  | findAndUpdate (oid : ObjectID)
  | delete (oid : ObjectID)
deriving DecidableEq, Repr

/-- A handler invocation's observable effects: its outcome, the
collection state afterwards, and the store calls it issued. -/
structure HandlerResult (ρ : Type) where
  outcome : HandlerOutcome ρ
  store : Store
  calls : List StoreCall
deriving DecidableEq, Repr

/-- `CreateBlog` (main.go lines 31-57): builds a `BlogItem` with the zero
`ID` (so `_id` is omitted and the store assigns one), inserts it, maps an
insert error to `Internal`, then performs the unchecked cast
`result.InsertedID.(primitive.ObjectID)` — a non-ObjectID key panics —
and returns the request blog with `Id` set to the key's hex string. -/
def CreateBlog (env : DbEnv) (store : Store) (req : CreateBlogReq) :
    HandlerResult CreateBlogRes :=
  let blog := req.blog
  let data : BlogItem :=
    { ID := NilObjectID
      AuthorID := blog.author_id
      Title := blog.title
      Content := blog.content }
  let doc := marshalInsert data
  match insertOne env store doc with
  | (.error e, store') =>
      ⟨.errStatus .Internal ("Internal error: " ++ e), store', [.insert doc]⟩
  | (.ok inserted, store') =>
      match inserted with
      | .objectId oid =>
          ⟨.ok ⟨{ blog with id := oid.Hex }⟩, store', [.insert doc]⟩
      | .other t =>
          ⟨.panicked ("interface conversion: InsertedID is " ++ t ++
              ", not primitive.ObjectID"), store', [.insert doc]⟩

/-- `ReadBlog` (main.go lines 60-90): parse failure returns
`InvalidArgument` before any store call; otherwise one `FindOne` whose
decode failure (no match or driver fault) maps to `NotFound`. -/
def ReadBlog (env : DbEnv) (store : Store) (req : ReadBlogReq) :
    HandlerResult ReadBlogRes :=
  let blogId := req.id
  match ObjectIDFromHex blogId with
  | none =>
      ⟨.errStatus .InvalidArgument ("Could not convert to ObjectId: " ++ blogId),
       store, []⟩
  | some oid =>
      match findOneDecode env store oid with
      | .error e =>
          ⟨.errStatus .NotFound
              ("Could not find blog with Object Id " ++ blogId ++ ":" ++ e),
           store, [.find oid]⟩
      | .ok data =>
          ⟨.ok ⟨{ id := oid.Hex
                  author_id := data.AuthorID
                  title := data.Title
                  content := data.Content }⟩,
           store, [.find oid]⟩

/-- `UpdateBlog` (main.go lines 92-127): on parse failure the
`status.Errorf` value is built but neither returned nor checked (source
line 99), so execution continues with the zero-valued `oid` and the
`FindOneAndUpdate` call is still issued; a decode failure maps to
`NotFound`; on success the response carries the post-update document
with `Id` taken from the decoded document's `_id`. -/
def UpdateBlog (env : DbEnv) (store : Store) (req : UpdateBlogReq) :
    HandlerResult UpdateBlogRes :=
  let blog := req.blog
  let id := blog.id
  let oid : ObjectID := (ObjectIDFromHex id).getD NilObjectID
  let update : UpdateFields :=
    { author_id := blog.author_id, title := blog.title, content := blog.content }
  match findOneAndUpdateDecode env store oid update with
  | (.error e, store') =>
      ⟨.errStatus .NotFound
          ("Could not find blog with Supplied ID " ++ id ++ ": " ++ e),
       store', [.findAndUpdate oid]⟩
  | (.ok data, store') =>
      ⟨.ok ⟨{ id := data.ID.Hex
              author_id := data.AuthorID
              title := data.Title
              content := data.Content }⟩,
       store', [.findAndUpdate oid]⟩

/-- `DeleteBlog` (main.go lines 130-145): parse failure returns
`InvalidArgument` before any store call; the `DeleteOne` result is
discarded (`_, err`), so a zero deleted count still yields
`success = true`, and a driver error maps to `NotFound`. -/
def DeleteBlog (env : DbEnv) (store : Store) (req : DeleteBlogReq) :
    HandlerResult DeleteBlogRes :=
  let idAsString := req.id
  match ObjectIDFromHex idAsString with
  | none =>
      ⟨.errStatus .InvalidArgument
          ("Could not convert to ObjectId: " ++ idAsString), store, []⟩
  | some oid =>
      match deleteOne env store oid with
      | (.error e, store') =>
          ⟨.errStatus .NotFound
              ("Couldn't find/delete blog with id " ++ idAsString ++ " : " ++ e),
           store', [.delete oid]⟩
      | (.ok _, store') =>
          ⟨.ok ⟨true⟩, store', [.delete oid]⟩

/-- A connected `mongo.Client` handle; `reachable` records whether the
database answers a `Ping` on this handle. -/
structure MongoClient where
  reachable : Bool
deriving DecidableEq, Repr

/-- The environment `main` runs in: whether the TCP listen succeeds and
what `mongo.Connect` returns. -/
structure MainEnv where
  listenOk : Bool
  connectResult : Except String MongoClient
deriving Repr

/-- How a run of `main`'s startup sequence ends. -/
inductive MainOutcome where
  | fatalListenError
  | fatalConnectError
  | nilPointerPanic
  | fatalPingError
  | serving
deriving DecidableEq, Repr

/-- A run of `main`'s startup: its end state, whether
`grpcServer.Serve` was ever invoked, and whether a `Ping` succeeded. -/
structure MainRun where
  outcome : MainOutcome
  serveStarted : Bool
  pingSucceeded : Bool
deriving DecidableEq, Repr

/-- `Ping` on a client handle that may be nil (`Option`): on the nil
client the method dereferences a nil pointer and the process crashes;
otherwise it reports whether the database is reachable. -/
def clientPing : Option MongoClient → Option Bool
  | none => none
  | some c => some c.reachable

/-- `main` (main.go lines 189-234), up to the point where the server is
serving. The connected client is bound only to the local variable
`client` (line 212); the package-level `db` (line 22) is never assigned
and stays nil, which is what `db.Ping` (line 218) then dereferences. -/
def runMain (env : MainEnv) : MainRun :=
  if env.listenOk = false then
    ⟨.fatalListenError, false, false⟩
  else
    match env.connectResult with
    | .error _ => ⟨.fatalConnectError, false, false⟩
    | .ok _client =>
        let db : Option MongoClient := none
        match clientPing db with
        | none => ⟨.nilPointerPanic, false, false⟩
        | some pingOk =>
            if pingOk then ⟨.serving, true, true⟩
            else ⟨.fatalPingError, false, false⟩

/-- The database is unreachable at startup: either `mongo.Connect`
fails, or every ping on a connected client fails. -/
def dbUnreachable (env : MainEnv) : Prop :=
  (∃ e, env.connectResult = .error e) ∨
    (∀ c, env.connectResult = .ok c → c.reachable = false)

/-- One rpc declaration of `service BlogService` in blog.proto:
its name, input message type, output message type, and whether it is
declared with server streaming. -/
structure RpcMethod where
  name : String
  input : String
  output : String
  serverStreaming : Bool
deriving DecidableEq, Repr

/-- The five rpc declarations of blog.proto lines 6-15, transcribed:
note line 14 declares `ListBlog` as returning its own request type. -/
def blogServiceSchema : List RpcMethod :=
  [⟨"CreateBlog", "CreateBlogReq", "CreateBlogRes", false⟩,
   ⟨"ReadBlog", "ReadBlogReq", "ReadBlogRes", false⟩,
   ⟨"UpdateBlog", "UpdateBlogReq", "UpdateBlogRes", false⟩,
   ⟨"DeleteBlog", "DeleteBlogReq", "DeleteBlogRes", false⟩,
   ⟨"ListBlog", "ListBlogReq", "ListBlogReq", false⟩]

/-- The handler methods the registered server type of main.go actually
implements as live code: `ListBlogs` (main.go lines 147-180) exists only
as a commented-out block, so it is absent. -/
def registeredHandlers : List String :=
  ["CreateBlog", "ReadBlog", "UpdateBlog", "DeleteBlog"]

/-- A sample ObjectID for concrete test inputs: twelve `0xaa` bytes,
whose hex string is 24 letters `a`. -/
def sampleOid : ObjectID :=
  ⟨List.replicate 12 170, by decide⟩

/-! ### Hex encoding lemmas -/

theorem hexVal_hexDigit_fin : ∀ i : Fin 16, hexVal (hexDigit i.val) = some i.val := by
  decide

theorem hexVal_hexDigit (n : Nat) (h : n < 16) : hexVal (hexDigit n) = some n :=
  hexVal_hexDigit_fin ⟨n, h⟩

theorem decodePairs_byteHex_cons (b : Nat) (hb : b < 256) (rest : List Char)
    (l : List Nat) (hrest : decodePairs rest = some l) :
    decodePairs (byteHex b ++ rest) = some (b :: l) := by
  have hhi : b / 16 < 16 := by omega
  have hlo : b % 16 < 16 := Nat.mod_lt _ (by omega)
  have h1 := hexVal_hexDigit (b / 16) hhi
  have h2 := hexVal_hexDigit (b % 16) hlo
  simp only [byteHex, List.cons_append, List.nil_append, decodePairs, h1, h2,
    hrest, Option.bind_eq_bind, Option.some_bind]
  have : 16 * (b / 16) + b % 16 = b := Nat.div_add_mod b 16
  simp [this]
  rw [hrest]
  rfl

theorem decodePairs_flatMap (l : List Nat) (h : ∀ b ∈ l, b < 256) :
    decodePairs (l.flatMap byteHex) = some l := by
  induction l with
  | nil => rfl
  | cons b tl ih =>
      rw [List.flatMap_cons]
      exact decodePairs_byteHex_cons b (h b (List.mem_cons_self b tl)) _ _
        (ih (fun x hx => h x (List.mem_cons_of_mem b hx)))

theorem flatMap_byteHex_length (l : List Nat) :
    (l.flatMap byteHex).length = 2 * l.length := by
  induction l with
  | nil => rfl
  | cons b tl ih =>
      rw [List.flatMap_cons, List.length_append, ih]
      simp [byteHex]
      omega

/-- Parsing is a left inverse of hex encoding on ObjectIDs. -/
theorem ObjectIDFromHex_Hex (oid : ObjectID) :
    ObjectIDFromHex oid.Hex = some oid := by
  obtain ⟨l, hlen, hbound⟩ := oid
  have hdata : (ObjectID.Hex ⟨l, hlen, hbound⟩).data = l.flatMap byteHex := rfl
  have hslen : (ObjectID.Hex ⟨l, hlen, hbound⟩).length = 24 := by
    show (l.flatMap byteHex).length = 24
    rw [flatMap_byteHex_length, hlen]
  rw [ObjectIDFromHex, if_pos hslen, hdata, decodePairs_flatMap l hbound]
  exact dif_pos ⟨hlen, hbound⟩

/-- The hex string of an ObjectID is never empty. -/
theorem Hex_ne_empty (oid : ObjectID) : oid.Hex ≠ "" := by
  obtain ⟨l, hlen, hbound⟩ := oid
  intro h
  have : (ObjectID.Hex ⟨l, hlen, hbound⟩).data = ("" : String).data := by rw [h]
  rw [show (ObjectID.Hex ⟨l, hlen, hbound⟩).data = l.flatMap byteHex from rfl] at this
  have h0 : (l.flatMap byteHex).length = 0 := by rw [this]; rfl
  rw [flatMap_byteHex_length, hlen] at h0
  omega

/-! ### Store lemmas -/

theorem storeFind_eq_some_ID {store : Store} {oid : ObjectID} {item : BlogItem}
    (h : storeFind store oid = some item) : item.ID = oid := by
  have := List.find?_some h
  exact of_decide_eq_true this

theorem storeFind_append_singleton {store : Store} {oid : ObjectID}
    (it : BlogItem) (h : storeFind store oid = none) (hit : it.ID = oid) :
    storeFind (store ++ [it]) oid = some it := by
  induction store with
  | nil => simp [storeFind, List.find?, hit]
  | cons a tl ih =>
      rw [storeFind, List.cons_append, List.find?]
      rw [storeFind, List.find?] at h
      cases hd : decide (a.ID = oid) with
      | true => rw [hd] at h; simp at h
      | false => rw [hd] at h; simp only [hd]; exact ih h

theorem storeFind_storeReplace_self {store : Store} {oid : ObjectID}
    {item : BlogItem} (item' : BlogItem) (h : storeFind store oid = some item)
    (hid : item'.ID = oid) :
    storeFind (storeReplace store oid item') oid = some item' := by
  induction store with
  | nil => simp [storeFind, List.find?] at h
  | cons a tl ih =>
      rw [storeFind, List.find?] at h
      by_cases ha : a.ID = oid
      · rw [storeReplace, if_pos ha, storeFind, List.find?]
        simp [hid]
      · rw [storeReplace, if_neg ha, storeFind, List.find?]
        cases hd : decide (a.ID = oid) with
        | true => exact absurd (of_decide_eq_true hd) ha
        | false =>
            rw [hd] at h
            exact ih h

theorem mem_storeReplace_of_ne {store : Store} {oid : ObjectID}
    {it : BlogItem} (item' : BlogItem) (hmem : it ∈ store) (hne : it.ID ≠ oid) :
    it ∈ storeReplace store oid item' := by
  induction store with
  | nil => simp at hmem
  | cons a tl ih =>
      rcases List.mem_cons.mp hmem with rfl | htl
      · rw [storeReplace, if_neg hne]
        exact List.mem_cons_self _ _
      · rw [storeReplace]
        by_cases ha : a.ID = oid
        · rw [if_pos ha]; exact List.mem_cons_of_mem _ htl
        · rw [if_neg ha]; exact List.mem_cons_of_mem _ (ih htl)

/-! ### Claim C1 -/

/-- Claim C1, counterexample to the claim as stated: on the fault-free
store with no documents, Delete of the well-formed identifier
`"aaaaaaaaaaaaaaaaaaaaaaaa"` (which matches zero documents, so zero are
deleted) returns `success = true` and not the NotFound status. -/
theorem c1_counterexample :
    (DeleteBlog (okEnv NilObjectID) [] ⟨"aaaaaaaaaaaaaaaaaaaaaaaa"⟩).outcome =
      .ok ⟨true⟩ ∧
    (DeleteBlog (okEnv NilObjectID) [] ⟨"aaaaaaaaaaaaaaaaaaaaaaaa"⟩).outcome.statusCode ≠
      some Code.NotFound := by
  decide

/-- Claim C1 (amended): for every identifier string that parses as a
valid ObjectID but matches no persisted document, Read and Update return
the NotFound status; Delete, however, never inspects the deleted count
and returns `success = true` rather than NotFound. -/
theorem c1_absent_id_read_update_notFound_delete_success
    (env : DbEnv) (store : Store) (s : String) (oid : ObjectID) (b : Blog)
    (hparse : ObjectIDFromHex s = some oid)
    (habsent : storeFind store oid = none)
    (hfind : env.findErr = none) (hupd : env.updateErr = none)
    (hdel : env.deleteErr = none) (hbid : b.id = s) :
    (ReadBlog env store ⟨s⟩).outcome.statusCode = some Code.NotFound ∧
    (UpdateBlog env store ⟨b⟩).outcome.statusCode = some Code.NotFound ∧
    (DeleteBlog env store ⟨s⟩).outcome = .ok ⟨true⟩ := by
  refine ⟨?_, ?_, ?_⟩
  · simp only [ReadBlog, hparse, findOneDecode, hfind, habsent]
    rfl
  · simp only [UpdateBlog, hbid, hparse, Option.getD_some,
      findOneAndUpdateDecode, hupd, habsent]
    rfl
  · simp only [DeleteBlog, hparse, deleteOne, hdel, habsent]

/-- Claim C1, witness for the amended theorem at a concrete input. -/
theorem c1_witness :
    (ReadBlog (okEnv NilObjectID) [] ⟨"aaaaaaaaaaaaaaaaaaaaaaaa"⟩).outcome.statusCode =
      some Code.NotFound ∧
    (UpdateBlog (okEnv NilObjectID) []
        ⟨⟨"aaaaaaaaaaaaaaaaaaaaaaaa", "a", "t", "c"⟩⟩).outcome.statusCode =
      some Code.NotFound ∧
    (DeleteBlog (okEnv NilObjectID) [] ⟨"aaaaaaaaaaaaaaaaaaaaaaaa"⟩).outcome =
      .ok ⟨true⟩ :=
  c1_absent_id_read_update_notFound_delete_success (okEnv NilObjectID) []
    "aaaaaaaaaaaaaaaaaaaaaaaa" ⟨List.replicate 12 170, by decide⟩
    ⟨"aaaaaaaaaaaaaaaaaaaaaaaa", "a", "t", "c"⟩
    (by decide) (by decide) rfl rfl rfl rfl

/-! ### Claim C2 -/

/-- Claim C2: Read and Delete do return the invalid-argument status with
no store call on an unparseable identifier, but Update builds the status
error without returning it and proceeds: on the unparseable id `"abc"`
it still issues a `FindOneAndUpdate` call with the zero ObjectID, and
when a document is stored under the zero ObjectID it even succeeds —
the code contradicts the intended (and partially implemented)
invalid-identifier handling. -/
theorem c2_update_parse_error_dropped :
    (ReadBlog (okEnv NilObjectID) [⟨NilObjectID, "a1", "c1", "t1"⟩] ⟨"abc"⟩).calls =
      [] ∧
    (ReadBlog (okEnv NilObjectID) [⟨NilObjectID, "a1", "c1", "t1"⟩] ⟨"abc"⟩).outcome.statusCode =
      some Code.InvalidArgument ∧
    (DeleteBlog (okEnv NilObjectID) [⟨NilObjectID, "a1", "c1", "t1"⟩] ⟨"abc"⟩).calls =
      [] ∧
    (DeleteBlog (okEnv NilObjectID) [⟨NilObjectID, "a1", "c1", "t1"⟩] ⟨"abc"⟩).outcome.statusCode =
      some Code.InvalidArgument ∧
    (UpdateBlog (okEnv NilObjectID) [⟨NilObjectID, "a1", "c1", "t1"⟩]
        ⟨⟨"abc", "a2", "t2", "c2"⟩⟩).calls =
      [.findAndUpdate NilObjectID] ∧
    (UpdateBlog (okEnv NilObjectID) [⟨NilObjectID, "a1", "c1", "t1"⟩]
        ⟨⟨"abc", "a2", "t2", "c2"⟩⟩).outcome =
      .ok ⟨⟨"000000000000000000000000", "a2", "t2", "c2"⟩⟩ := by
  decide

/-! ### Claim C3 -/

/-- Claim C3: for every entity payload, Create inserts a document whose
store-assigned key is fresh, returns it as a non-empty hex identifier,
and Read with that identifier succeeds and yields the created author id,
title, and body. -/
theorem c3_create_then_read (env : DbEnv) (store : Store) (fresh : ObjectID)
    (b : Blog)
    (hid : env.insertedId = .objectId fresh)
    (hins : env.insertErr = none)
    (hfind : env.findErr = none)
    (hfresh : storeFind store fresh = none) :
    (CreateBlog env store ⟨b⟩).outcome = .ok ⟨{ b with id := fresh.Hex }⟩ ∧
    fresh.Hex ≠ "" ∧
    (ReadBlog env (CreateBlog env store ⟨b⟩).store ⟨fresh.Hex⟩).outcome =
      .ok ⟨⟨fresh.Hex, b.author_id, b.title, b.content⟩⟩ := by
  have hstore : (CreateBlog env store ⟨b⟩).store =
      store ++ [⟨fresh, b.author_id, b.content, b.title⟩] := by
    simp [CreateBlog, marshalInsert, insertOne, hins, hid]
  refine ⟨?_, Hex_ne_empty fresh, ?_⟩
  · simp [CreateBlog, marshalInsert, insertOne, hins, hid]
  · have hfound : storeFind (CreateBlog env store ⟨b⟩).store fresh =
        some ⟨fresh, b.author_id, b.content, b.title⟩ := by
      rw [hstore]
      exact storeFind_append_singleton _ hfresh rfl
    simp [ReadBlog, ObjectIDFromHex_Hex, findOneDecode, hfind, hfound]

/-- Claim C3, witness at a concrete payload and fresh key. -/
theorem c3_witness :
    (CreateBlog (okEnv sampleOid) [] ⟨⟨"", "u1", "Hello", "World"⟩⟩).outcome =
      .ok ⟨⟨"aaaaaaaaaaaaaaaaaaaaaaaa", "u1", "Hello", "World"⟩⟩ ∧
    (ReadBlog (okEnv sampleOid)
        (CreateBlog (okEnv sampleOid) [] ⟨⟨"", "u1", "Hello", "World"⟩⟩).store
        ⟨"aaaaaaaaaaaaaaaaaaaaaaaa"⟩).outcome =
      .ok ⟨⟨"aaaaaaaaaaaaaaaaaaaaaaaa", "u1", "Hello", "World"⟩⟩ := by
  have h := c3_create_then_read (okEnv sampleOid) [] sampleOid
    ⟨"", "u1", "Hello", "World"⟩ rfl rfl rfl rfl
  exact ⟨h.1, h.2.2⟩

/-! ### Claim C4 -/

/-- Claim C4: on a successful Update of an existing document, exactly
the author id, title, and content fields are replaced by the request's
values, the `_id` of the stored document is unchanged, every other
document is untouched, and the response carries the post-update document
under the unchanged identifier. -/
theorem c4_update_replaces_exactly_fields (env : DbEnv) (store : Store)
    (s : String) (oid : ObjectID) (item : BlogItem) (b : Blog)
    (hparse : ObjectIDFromHex s = some oid)
    (hfound : storeFind store oid = some item)
    (hupd : env.updateErr = none)
    (hbid : b.id = s) :
    (UpdateBlog env store ⟨b⟩).outcome =
      .ok ⟨⟨oid.Hex, b.author_id, b.title, b.content⟩⟩ ∧
    storeFind (UpdateBlog env store ⟨b⟩).store oid =
      some ⟨item.ID, b.author_id, b.content, b.title⟩ ∧
    item.ID = oid ∧
    (∀ it ∈ store, it.ID ≠ oid → it ∈ (UpdateBlog env store ⟨b⟩).store) := by
  have hID : item.ID = oid := storeFind_eq_some_ID hfound
  refine ⟨?_, ?_, hID, ?_⟩
  · simp only [UpdateBlog, hbid, hparse, Option.getD_some,
      findOneAndUpdateDecode, hupd, hfound]
    simp [hID]
  · simp only [UpdateBlog, hbid, hparse, Option.getD_some,
      findOneAndUpdateDecode, hupd, hfound]
    exact storeFind_storeReplace_self _ hfound (by simp [hID])
  · intro it hmem hne
    simp only [UpdateBlog, hbid, hparse, Option.getD_some,
      findOneAndUpdateDecode, hupd, hfound]
    exact mem_storeReplace_of_ne _ hmem hne

/-- Claim C4, witness at a concrete store of two documents. -/
theorem c4_witness :
    (UpdateBlog (okEnv NilObjectID)
        [⟨NilObjectID, "other", "keep", "kept"⟩,
         ⟨sampleOid, "u1", "World", "Hello"⟩]
        ⟨⟨"aaaaaaaaaaaaaaaaaaaaaaaa", "u1", "Hi", "World"⟩⟩).outcome =
      .ok ⟨⟨"aaaaaaaaaaaaaaaaaaaaaaaa", "u1", "Hi", "World"⟩⟩ ∧
    storeFind (UpdateBlog (okEnv NilObjectID)
        [⟨NilObjectID, "other", "keep", "kept"⟩,
         ⟨sampleOid, "u1", "World", "Hello"⟩]
        ⟨⟨"aaaaaaaaaaaaaaaaaaaaaaaa", "u1", "Hi", "World"⟩⟩).store sampleOid =
      some ⟨sampleOid, "u1", "World", "Hi"⟩ := by
  have h := c4_update_replaces_exactly_fields (okEnv NilObjectID)
    [⟨NilObjectID, "other", "keep", "kept"⟩, ⟨sampleOid, "u1", "World", "Hello"⟩]
    "aaaaaaaaaaaaaaaaaaaaaaaa" sampleOid ⟨sampleOid, "u1", "World", "Hello"⟩
    ⟨"aaaaaaaaaaaaaaaaaaaaaaaa", "u1", "Hi", "World"⟩
    (by decide) (by decide) rfl rfl
  exact ⟨h.1, h.2.1⟩

/-! ### Claim C5 -/

/-- Claim C5, counterexample to the claim as stated: a driver-level
error from Delete's store call is surfaced as the not-found status, not
as internal. -/
theorem c5_counterexample :
    (DeleteBlog { okEnv NilObjectID with deleteErr := some "connection reset by peer" }
        [] ⟨"aaaaaaaaaaaaaaaaaaaaaaaa"⟩).outcome.statusCode = some Code.NotFound ∧
    (DeleteBlog { okEnv NilObjectID with deleteErr := some "connection reset by peer" }
        [] ⟨"aaaaaaaaaaaaaaaaaaaaaaaa"⟩).outcome.statusCode ≠ some Code.Internal := by
  decide

/-- Claim C5 (amended): the actual failure-to-status mapping of the
handlers: identifier-parse failures map to invalid-argument in Read and
Delete; a store failure maps to internal only in Create; in Read,
Update, and Delete every store-call failure — driver-level errors
included — is surfaced as not-found. -/
theorem c5_status_mapping (env : DbEnv) (store : Store) :
    (∀ req e, env.insertErr = some e →
      (CreateBlog env store req).outcome.statusCode = some Code.Internal) ∧
    (∀ s, ObjectIDFromHex s = none →
      (ReadBlog env store ⟨s⟩).outcome.statusCode = some Code.InvalidArgument ∧
      (DeleteBlog env store ⟨s⟩).outcome.statusCode = some Code.InvalidArgument) ∧
    (∀ s oid e, ObjectIDFromHex s = some oid → env.findErr = some e →
      (ReadBlog env store ⟨s⟩).outcome.statusCode = some Code.NotFound) ∧
    (∀ b e, env.updateErr = some e →
      (UpdateBlog env store ⟨b⟩).outcome.statusCode = some Code.NotFound) ∧
    (∀ s oid e, ObjectIDFromHex s = some oid → env.deleteErr = some e →
      (DeleteBlog env store ⟨s⟩).outcome.statusCode = some Code.NotFound) := by
  refine ⟨?_, ?_, ?_, ?_, ?_⟩
  · intro req e he
    simp [CreateBlog, marshalInsert, insertOne, he, HandlerOutcome.statusCode]
  · intro s hs
    constructor
    · simp [ReadBlog, hs, HandlerOutcome.statusCode]
    · simp [DeleteBlog, hs, HandlerOutcome.statusCode]
  · intro s oid e hparse he
    simp [ReadBlog, hparse, findOneDecode, he, HandlerOutcome.statusCode]
  · intro b e he
    simp [UpdateBlog, findOneAndUpdateDecode, he, HandlerOutcome.statusCode]
  · intro s oid e hparse he
    simp [DeleteBlog, hparse, deleteOne, he, HandlerOutcome.statusCode]

/-- Claim C5, witness for the amended mapping at concrete faults. -/
theorem c5_witness :
    (CreateBlog ⟨.objectId NilObjectID, some "w1", some "w2", some "w3", some "w4"⟩
        [] ⟨⟨"", "a", "t", "c"⟩⟩).outcome.statusCode = some Code.Internal ∧
    (ReadBlog ⟨.objectId NilObjectID, some "w1", some "w2", some "w3", some "w4"⟩
        [] ⟨"abc"⟩).outcome.statusCode = some Code.InvalidArgument ∧
    (ReadBlog ⟨.objectId NilObjectID, some "w1", some "w2", some "w3", some "w4"⟩
        [] ⟨"aaaaaaaaaaaaaaaaaaaaaaaa"⟩).outcome.statusCode = some Code.NotFound ∧
    (UpdateBlog ⟨.objectId NilObjectID, some "w1", some "w2", some "w3", some "w4"⟩
        [] ⟨⟨"aaaaaaaaaaaaaaaaaaaaaaaa", "a", "t", "c"⟩⟩).outcome.statusCode =
      some Code.NotFound ∧
    (DeleteBlog ⟨.objectId NilObjectID, some "w1", some "w2", some "w3", some "w4"⟩
        [] ⟨"aaaaaaaaaaaaaaaaaaaaaaaa"⟩).outcome.statusCode = some Code.NotFound := by
  have h := c5_status_mapping
    ⟨.objectId NilObjectID, some "w1", some "w2", some "w3", some "w4"⟩ []
  exact ⟨h.1 ⟨⟨"", "a", "t", "c"⟩⟩ "w1" rfl,
    (h.2.1 "abc" (by decide)).1,
    h.2.2.1 "aaaaaaaaaaaaaaaaaaaaaaaa" sampleOid "w2" (by decide) rfl,
    h.2.2.2.1 ⟨"aaaaaaaaaaaaaaaaaaaaaaaa", "a", "t", "c"⟩ "w3" rfl,
    h.2.2.2.2 "aaaaaaaaaaaaaaaaaaaaaaaa" sampleOid "w4" (by decide) rfl⟩

/-! ### Claim C6 -/

/-- Claim C6: when the database is unreachable at startup — the connect
call fails, or no connected client answers a ping — the run of `main`
never invokes `grpcServer.Serve` and does not end in the serving state;
moreover in every run, serving requires that a ping succeeded first. -/
theorem c6_unreachable_db_never_serves (env : MainEnv)
    (_h : dbUnreachable env) :
    (runMain env).serveStarted = false ∧
    (runMain env).outcome ≠ MainOutcome.serving ∧
    ((runMain env).serveStarted = true → (runMain env).pingSucceeded = true) := by
  have hrun : (runMain env).serveStarted = false ∧
      (runMain env).outcome ≠ MainOutcome.serving := by
    unfold runMain
    cases hl : env.listenOk
    · simp
    · cases hc : env.connectResult <;> simp [clientPing]
  exact ⟨hrun.1, hrun.2, fun hs => absurd hs (by simp [hrun.1])⟩

/-- Claim C6, witness: a run whose connect call fails. -/
theorem c6_witness :
    (runMain ⟨true, .error "connection refused"⟩).serveStarted = false ∧
    (runMain ⟨true, .error "connection refused"⟩).outcome ≠ MainOutcome.serving :=
  have h := c6_unreachable_db_never_serves ⟨true, .error "connection refused"⟩
    (Or.inl ⟨"connection refused", rfl⟩)
  ⟨h.1, h.2.1⟩

/-! ### Claim C7 -/

/-- Claim C7: the connected client is bound only to the local variable;
the package-level `db` stays nil, so whenever listening and connecting
succeed — the database may well be reachable — the run crashes with a
nil-pointer dereference at the ping step and never serves. -/
theorem c7_nil_client_ping_crash (env : MainEnv) (c : MongoClient)
    (hl : env.listenOk = true) (hc : env.connectResult = .ok c) :
    (runMain env).outcome = MainOutcome.nilPointerPanic ∧
    (runMain env).serveStarted = false := by
  unfold runMain
  rw [hl, hc]
  simp [clientPing]

/-- Claim C7, witness: a run against a reachable database still crashes
at the ping step. -/
theorem c7_witness :
    (runMain ⟨true, .ok ⟨true⟩⟩).outcome = MainOutcome.nilPointerPanic ∧
    (runMain ⟨true, .ok ⟨true⟩⟩).serveStarted = false :=
  c7_nil_client_ping_crash ⟨true, .ok ⟨true⟩⟩ ⟨true⟩ rfl rfl

/-! ### Claim C8 -/

/-- Claim C8: Create's conversion of the store-assigned key is an
unchecked runtime cast: when the insert result reports an ObjectID the
success path completes and returns its hex string, and when it reports a
key of any other dynamic type the handler panics instead of failing with
an error. -/
theorem c8_unchecked_cast (env : DbEnv) (store : Store) (req : CreateBlogReq)
    (hins : env.insertErr = none) :
    (∀ oid, env.insertedId = .objectId oid →
      (CreateBlog env store req).outcome = .ok ⟨{ req.blog with id := oid.Hex }⟩) ∧
    (∀ t, env.insertedId = .other t →
      (CreateBlog env store req).outcome =
        .panicked ("interface conversion: InsertedID is " ++ t ++
          ", not primitive.ObjectID")) := by
  constructor
  · intro oid hid
    simp [CreateBlog, marshalInsert, insertOne, hins, hid]
  · intro t ht
    simp [CreateBlog, marshalInsert, insertOne, hins, ht]

/-- Claim C8, witness: a concrete ObjectID key succeeds with its hex
string; a concrete key of dynamic type `string` panics. -/
theorem c8_witness :
    (CreateBlog (okEnv sampleOid) [] ⟨⟨"", "u1", "Hello", "World"⟩⟩).outcome =
      .ok ⟨⟨"aaaaaaaaaaaaaaaaaaaaaaaa", "u1", "Hello", "World"⟩⟩ ∧
    (CreateBlog ⟨.other "string", none, none, none, none⟩ []
        ⟨⟨"", "u1", "Hello", "World"⟩⟩).outcome =
      .panicked "interface conversion: InsertedID is string, not primitive.ObjectID" :=
  ⟨(c8_unchecked_cast (okEnv sampleOid) [] ⟨⟨"", "u1", "Hello", "World"⟩⟩ rfl).1
      sampleOid rfl,
   (c8_unchecked_cast ⟨.other "string", none, none, none, none⟩ []
      ⟨⟨"", "u1", "Hello", "World"⟩⟩ rfl).2 "string" rfl⟩

/-! ### Claim C9 -/

/-- Claim C9: the schema's `ListBlog` rpc is declared with its response
type equal to the request type `ListBlogReq` — not the list-result type
`ListBlogRes` — and the registered server type implements no `ListBlog`
handler (the streaming implementation exists only as commented-out
code), so no live code path serves the list operation. -/
theorem c9_list_declared_unimplemented :
    blogServiceSchema.find? (fun m => m.name == "ListBlog") =
      some ⟨"ListBlog", "ListBlogReq", "ListBlogReq", false⟩ ∧
    "ListBlog" ∉ registeredHandlers ∧
    "ListBlogs" ∉ registeredHandlers := by
  decide

/-! ### Claim C10 -/

/-- Claim C10: for every Create request — a non-empty caller-supplied id
included — the single inserted document carries only the author id,
content, and title fields and no `_id`; the request is never rejected
with invalid-argument, and on success the response id is the hex of the
store-assigned key. -/
theorem c10_create_ignores_caller_id (env : DbEnv) (store : Store)
    (req : CreateBlogReq) :
    (CreateBlog env store req).calls =
      [.insert ⟨none, req.blog.author_id, req.blog.content, req.blog.title⟩] ∧
    (CreateBlog env store req).outcome.statusCode ≠ some Code.InvalidArgument ∧
    (∀ oid, env.insertedId = .objectId oid → env.insertErr = none →
      (CreateBlog env store req).outcome = .ok ⟨{ req.blog with id := oid.Hex }⟩) := by
  have hcalls : (CreateBlog env store req).calls =
      [.insert ⟨none, req.blog.author_id, req.blog.content, req.blog.title⟩] := by
    rcases he : env.insertErr with _ | e
    · rcases hi : env.insertedId with oid | t <;>
        simp [CreateBlog, marshalInsert, insertOne, he, hi]
    · simp [CreateBlog, marshalInsert, insertOne, he]
  have hcode : (CreateBlog env store req).outcome.statusCode ≠
      some Code.InvalidArgument := by
    rcases he : env.insertErr with _ | e
    · rcases hi : env.insertedId with oid | t <;>
        simp [CreateBlog, marshalInsert, insertOne, he, hi, HandlerOutcome.statusCode]
    · simp [CreateBlog, marshalInsert, insertOne, he, HandlerOutcome.statusCode]
  exact ⟨hcalls, hcode, fun oid hid hins => by
    simp [CreateBlog, marshalInsert, insertOne, hins, hid]⟩

/-- Claim C10, witness: a request whose blog carries the non-empty id
`"ffffffffffffffffffffffff"` still inserts an id-less document and gets
the store-assigned identifier back. -/
theorem c10_witness :
    (CreateBlog (okEnv sampleOid) []
        ⟨⟨"ffffffffffffffffffffffff", "u1", "Hello", "World"⟩⟩).calls =
      [.insert ⟨none, "u1", "World", "Hello"⟩] ∧
    (CreateBlog (okEnv sampleOid) []
        ⟨⟨"ffffffffffffffffffffffff", "u1", "Hello", "World"⟩⟩).outcome =
      .ok ⟨⟨"aaaaaaaaaaaaaaaaaaaaaaaa", "u1", "Hello", "World"⟩⟩ :=
  ⟨(c10_create_ignores_caller_id (okEnv sampleOid) []
      ⟨⟨"ffffffffffffffffffffffff", "u1", "Hello", "World"⟩⟩).1,
   (c10_create_ignores_caller_id (okEnv sampleOid) []
      ⟨⟨"ffffffffffffffffffffffff", "u1", "Hello", "World"⟩⟩).2.2 sampleOid rfl rfl⟩

end BlogService
